import Mathlib

/-!
Verification development for the SuperSpidey email-assistant backend.

The Python sources under `backend/Spidey` are shallowly embedded as Lean
functions: pure string manipulation is translated directly, external
effects (the Gemini text-generation calls, the downstream mail-creation
HTTP endpoint, JSON parsing of model output) are passed in as explicit
outcome parameters, and Python exceptions are represented with `Except`
or dedicated outcome constructors.
-/

namespace Spidey

/-! ## Python-style string primitives (over `List Char`) -/

/-- Python `str.lower()` restricted to ASCII case mapping. -/
def lowerList (l : List Char) : List Char := l.map Char.toLower

/-- Python `str.lower()` on strings. -/
def lowerStr (s : String) : String := String.mk (lowerList s.data)

/-- Python `needle in hay` substring containment on character lists. -/
def listContainsSub (hay needle : List Char) : Bool :=
  match hay with
  | [] => needle.isEmpty
  | _ :: t => needle.isPrefixOf hay || listContainsSub t needle

/-- Python `sub in s` substring containment on strings. -/
def containsStr (s sub : String) : Bool := listContainsSub s.data sub.data

/-- The whitespace characters stripped by Python `str.strip()`. -/
def isPyWs (c : Char) : Bool :=
  c = ' ' || c = '\t' || c = '\n' || c = '\x0d' || c = '\x0b' || c = '\x0c'

/-- Python `str.strip()` on character lists. -/
def stripList (l : List Char) : List Char :=
  ((l.dropWhile isPyWs).reverse.dropWhile isPyWs).reverse

/-- Python `str.strip()` on strings. -/
def pyStrip (s : String) : String := String.mk (stripList s.data)

/-- Python `str.replace(pat, rep)`: replace every non-overlapping leftmost
occurrence.  The fuel argument (initialised to the input length, which
always suffices) keeps the recursion structural.  All uses in this
development have a non-empty `pat`; for an empty `pat` the list is
returned unchanged. -/
def replaceListAux (pat rep : List Char) : Nat → List Char → List Char
  | 0, l => l
  | _, [] => []
  | f + 1, c :: t =>
    if pat.isPrefixOf (c :: t) ∧ pat ≠ [] then
      rep ++ replaceListAux pat rep f (t.drop (pat.length - 1))
    else
      c :: replaceListAux pat rep f t

/-- Python `s.replace(pat, rep)` on strings. -/
def pyReplace (s pat rep : String) : String :=
  String.mk (replaceListAux pat.data rep.data s.data.length s.data)

/-- Split a character list at the first occurrence of `sep`, returning the
part before and the part after; `none` when `sep` does not occur.  Models
Python `s.split(sep, 1)` (all uses have a non-empty `sep`). -/
def splitOnceList (sep : List Char) : List Char → Option (List Char × List Char)
  | [] => none
  | c :: t =>
    if sep.isPrefixOf (c :: t) ∧ sep ≠ [] then
      some ([], (c :: t).drop sep.length)
    else
      (splitOnceList sep t).map (fun p => (c :: p.1, p.2))

/-- Python `s.split(sep, 1)` on strings, returning both parts (the whole
string and `""` when `sep` is absent). -/
def pySplitOnce (s sep : String) : String × String :=
  match splitOnceList sep.data s.data with
  | some p => (String.mk p.1, String.mk p.2)
  | none => (s, "")

/-- Python `s.startswith(pre)`. -/
def pyStartsWith (s pre : String) : Bool := pre.data.isPrefixOf s.data

/-- Python word characters, as used by the `\b` regex assertion (ASCII). -/
def isWordChar (c : Char) : Bool := c.isAlpha || c.isDigit || c = '_'

/-- Python `str.title()` (ASCII): uppercase a letter that follows a
non-letter, lowercase the other letters. -/
def titleListGo : Bool → List Char → List Char
  | _, [] => []
  | prevAlpha, c :: t =>
    let c' := if c.isAlpha then (if prevAlpha then c.toLower else c.toUpper) else c
    c' :: titleListGo c.isAlpha t

/-- Python `str.title()` on strings. -/
def pyTitle (s : String) : String := String.mk (titleListGo false s.data)

/-! ## The email-address scanner

Embeds `re.findall(r'\b[A-Za-z0-9._%+-]+@[A-Za-z0-9.-]+\.[A-Z|a-z]{2,}\b', text)`
from `agents/email_agent.py`: leftmost non-overlapping matches, greedy
sub-expressions with backtracking, word-boundary assertions at both ends.
Note the character class `[A-Z|a-z]` of the top-level label literally
contains the pipe character, as in the source. -/

/-- Characters of the regex class `[A-Za-z0-9._%+-]` (the local part). -/
def isLocalChar (c : Char) : Bool :=
  c.isAlpha || c.isDigit || c = '.' || c = '_' || c = '%' || c = '+' || c = '-'

/-- Characters of the regex class `[A-Za-z0-9.-]` (the domain). -/
def isDomainChar (c : Char) : Bool :=
  c.isAlpha || c.isDigit || c = '.' || c = '-'

/-- Characters of the regex class `[A-Z|a-z]` (the top-level label,
including the literal pipe). -/
def isTldChar (c : Char) : Bool := c.isAlpha || c = '|'

/-- The `\b` word-boundary test between two (possibly absent) characters. -/
def boundaryB (l r : Option Char) : Bool :=
  (l.map isWordChar).getD false != (r.map isWordChar).getD false

/-- Longest length `t ≤` the given bound with `t ≥ 2` such that the
top-level label `trun.take t` is followed by a word boundary; `trun` is the
maximal run of `[A-Z|a-z]` characters and `tafter` what follows it. -/
def findTldLen (trun tafter : List Char) : Nat → Option Nat
  | 0 => none
  | 1 => none
  | t + 2 =>
    let lastW := ((trun.get? (t + 1)).map isWordChar).getD false
    let nextC := if t + 2 < trun.length then trun.get? (t + 2) else tafter.head?
    let nextW := (nextC.map isWordChar).getD false
    if lastW != nextW then some (t + 2) else findTldLen trun tafter (t + 1)

/-- Backtracking search for `[A-Za-z0-9.-]+\.[A-Z|a-z]{2,}\b` after the `@`:
`run` is the maximal `[A-Za-z0-9.-]` run and `after` what follows it; tries
domain lengths from the bound downwards, returning (domain length,
top-level-label length) of the leftmost-greedy match. -/
def findDomTld (run after : List Char) : Nat → Option (Nat × Nat)
  | 0 => none
  | k + 1 =>
    match run.drop (k + 1) ++ after with
    | c :: rest =>
      if c = '.' then
        let p := rest.span isTldChar
        match findTldLen p.1 p.2 p.1.length with
        | some t => some (k + 1, t)
        | none => findDomTld run after k
      else findDomTld run after k
    | [] => findDomTld run after k

/-- Attempt to match the whole email pattern at the current position;
`prev` is the character before the position (for `\b`).  Returns the
matched characters and the remainder. -/
def matchEmailAt (prev : Option Char) (cs : List Char) : Option (List Char × List Char) :=
  match cs with
  | [] => none
  | c :: _ =>
    if boundaryB prev (some c) then
      let sp := cs.span isLocalChar
      if sp.1.isEmpty then none
      else
        match sp.2 with
        | a :: ds =>
          if a = '@' then
            let dsp := ds.span isDomainChar
            match findDomTld dsp.1 dsp.2 dsp.1.length with
            | some kt =>
              let consumed := sp.1.length + 1 + kt.1 + 1 + kt.2
              some (cs.take consumed, cs.drop consumed)
            | none => none
          else none
        | [] => none
    else none

/-- Scan left to right, emitting non-overlapping matches (the behaviour of
`re.findall`); `fuel` bounds the recursion and is initialised to the input
length, which always suffices since every step consumes at least one
character. -/
def findEmailsAux : Nat → Option Char → List Char → List (List Char)
  | 0, _, _ => []
  | _, _, [] => []
  | f + 1, prev, c :: t =>
    match matchEmailAt prev (c :: t) with
    | some m => m.1 :: findEmailsAux f m.1.getLast? m.2
    | none => findEmailsAux f (some c) t

/-- `re.findall(email_pattern, s)` from `agents/email_agent.py`. -/
def findEmails (s : String) : List String :=
  (findEmailsAux s.data.length none s.data).map String.mk

/-! ## The keyword classifier and recipient extraction
(`agents/email_agent.py`, `call_model_and_execute_tools`) -/

/-- The `draft_keywords` list. -/
def draftKeywords : List String := ["create", "write", "draft", "generate", "make", "compose"]

/-- The `email_keywords` list. -/
def emailKeywords : List String := ["email", "draft", "message"]

/-- The `confirmation_keywords` list. -/
def confirmationKeywords : List String :=
  ["yes", "sure", "go ahead", "please", "okay", "ok", "yeah", "yep"]

/-- `any(keyword in text.lower() for keyword in kws)`. -/
def anyKeyword (kws : List String) (textLower : String) : Bool :=
  kws.any (fun k => containsStr textLower k)

/-- The `is_draft_request` keyword test of `call_model_and_execute_tools`:
draft and email keywords in the last user message, or draft and email
keywords anywhere in the conversation together with a confirmation word in
the last message. -/
def is_draft_request (lastUserMsg fullConversation : String) : Bool :=
  let ll := lowerStr lastUserMsg
  let fl := lowerStr fullConversation
  (anyKeyword draftKeywords ll && anyKeyword emailKeywords ll) ||
    (anyKeyword draftKeywords fl && anyKeyword emailKeywords fl &&
      anyKeyword confirmationKeywords ll)

/-- De-duplication preserving the first occurrence of each element, the
behaviour of Python `list(dict.fromkeys(xs))`; `seen` accumulates the
keys already emitted. -/
def firstDedupAux (seen : List String) : List String → List String
  | [] => []
  | a :: l => if a ∈ seen then firstDedupAux seen l else a :: firstDedupAux (a :: seen) l

/-- `list(dict.fromkeys(xs))`. -/
def firstDedup (l : List String) : List String := firstDedupAux [] l

/-- The scan step of recipient extraction: `re.findall` over the last user
message, falling back to the full conversation when the last message holds
no address. -/
def scannedEmails (lastUserMsg fullConversation : String) : List String :=
  let e := findEmails lastUserMsg
  if e.isEmpty then findEmails fullConversation else e

/-- Recipient extraction from `call_model_and_execute_tools`: scan, drop
addresses equal to the user's own (exact string comparison in the source),
then de-duplicate preserving first-seen order. -/
def extract_recipients (lastUserMsg fullConversation userEmail : String) : List String :=
  firstDedup ((scannedEmails lastUserMsg fullConversation).filter (fun e => e ≠ userEmail))

/-! ## Draft content generation (`agents/email_agent.py`) -/

/-- A draft dictionary as assembled by `call_model_and_execute_tools`. -/
structure DraftRec where
  user_email : String
  to_email : String
  subject : String
  body : String
deriving DecidableEq, Repr

/-- `recipient.split('@')[0].title()`: the display name derived from the
local part of the address. -/
def recipientName (recipient : String) : String :=
  pyTitle (String.mk (recipient.data.takeWhile (fun c => c ≠ '@')))

/-- The template body used both as the pre-parse default and as the
per-recipient fallback when the generation call raises. -/
def fallbackBody (name : String) : String :=
  "Hi " ++ name ++ ",\n\nI hope this message finds you well.\n\nBest regards"

/-- The per-recipient `draft_generation_prompt` f-string. -/
def draftPrompt (fullConversation name recipient : String) : String :=
  "Based on the following conversation, generate a professional email draft.\n\n" ++
  "Conversation context:\n" ++ fullConversation ++ "\n\n" ++
  "Recipient: " ++ name ++ " (" ++ recipient ++ ")\n\n" ++
  "Generate ONLY the email content in this EXACT format:\n" ++
  "SUBJECT: [write a clear, relevant subject line based on the conversation]\n" ++
  "BODY: [write a professional, personalized email body that reflects the conversation context]\n\n" ++
  "Requirements:\n" ++
  "- Keep it professional and concise\n" ++
  "- Personalize it for " ++ name ++ "\n" ++
  "- Match the tone and intent from the conversation\n" ++
  "- Do NOT include greetings like \"Dear\" in the subject\n" ++
  "- Do NOT add any extra text, explanations, or formatting outside the SUBJECT and BODY format"

/-- Build one recipient's draft from the outcome of its generation call
(`Except.error` models the call raising or timing out, `Except.ok` its
returned text): on an exception, the fallback template with subject
`"Message for {name}"`; on returned text, parse the `SUBJECT:`/`BODY:`
format, defaulting to subject `"Professional Outreach"` and the template
body when the markers are absent. -/
def generate_draft (userEmail : String) (recipient : String)
    (llm : Except String String) : DraftRec :=
  let name := recipientName recipient
  match llm with
  | .error _ =>
    { user_email := userEmail, to_email := recipient,
      subject := "Message for " ++ name, body := fallbackBody name }
  | .ok contentText =>
    let subject0 := "Professional Outreach"
    let body0 := fallbackBody name
    if containsStr contentText "SUBJECT:" && containsStr contentText "BODY:" then
      let parts := pySplitOnce contentText "BODY:"
      let subject1 := pyStrip (pyReplace parts.1 "SUBJECT:" "")
      let body1 := pyStrip parts.2
      let subject2 := pyReplace (pyReplace subject1 "**" "") "*" ""
      let body2 := pyReplace (pyReplace body1 "**" "") "*" ""
      { user_email := userEmail, to_email := recipient, subject := subject2, body := body2 }
    else
      { user_email := userEmail, to_email := recipient, subject := subject0, body := body0 }

/-- The per-recipient generation loop: each draft is built from its own
recipient's generation outcome only. -/
def makeDrafts (userEmail fullConversation : String) (recipients : List String)
    (gen : String → Except String String) : List DraftRec :=
  recipients.map (fun r =>
    generate_draft userEmail r (gen (draftPrompt fullConversation (recipientName r) r)))

/-! ## Draft dispatch (`tools.py`, `create_email_drafts`) -/

/-- One element of the `drafts_data` list: either not a dictionary, or a
dictionary whose three relevant keys may each be absent (`none`) or hold a
string. -/
inductive DraftInput where
  | notDict : DraftInput
  | dict (to_email subject body : Option String) : DraftInput
deriving DecidableEq, Repr

/-- The `missing_fields` computation: a field is missing when the key is
absent or its value is falsy (the empty string), checked in the source's
key order.  Note the check precedes `.strip()`, so whitespace-only values
count as present. -/
def missingFields : DraftInput → List String
  | .notDict => ["to_email", "subject", "body"]
  | .dict t s b =>
    (if t = none ∨ t = some "" then ["to_email"] else []) ++
    (if s = none ∨ s = some "" then ["subject"] else []) ++
    (if b = none ∨ b = some "" then ["body"] else [])

/-- A draft passes the per-item validation of `create_email_drafts` when it
is a dictionary and no field is missing or falsy. -/
def validDraft (d : DraftInput) : Bool :=
  match d with
  | .notDict => false
  | .dict t s b =>
    !(t = none ∨ t = some "") && !(s = none ∨ s = some "") && !(b = none ∨ b = some "")

/-- A validated `DraftItem` pydantic record, fields stripped as in the
source. -/
structure DraftItem where
  user_email : String
  to_email : String
  subject : String
  body : String
deriving DecidableEq, Repr

/-- Build the `DraftItem` for a draft that passed validation (absent keys
never occur on this path; they are mapped to the empty string). -/
def toDraftItem (userEmail : String) : DraftInput → DraftItem
  | .notDict =>
    { user_email := userEmail, to_email := "", subject := "", body := "" }
  | .dict t s b =>
    { user_email := userEmail, to_email := pyStrip (t.getD ""),
      subject := pyStrip (s.getD ""), body := pyStrip (b.getD "") }

/-- The JSON body of a `create-multi-draft` HTTP response, with each key
optional as under Python's `dict.get`. -/
structure RespJson where
  drafts_created : Option Nat
  draft_ids : Option (List String)
  message : Option String
  detail : Option String
deriving DecidableEq, Repr

/-- Outcome of the `requests.post` call to the mail-management service. -/
inductive HttpOutcome where
  | timeout : HttpOutcome
  | connError : HttpOutcome
  | status (code : Nat) (jsonBody : Option RespJson) (text : String) : HttpOutcome
deriving DecidableEq, Repr

/-- The dictionary returned by `create_email_drafts`, one optional field
per key the source ever writes.  The source never writes a `rejected` key,
so that lookup is modelled as the constant `none`. -/
structure ToolResult where
  success : Bool
  message : String
  drafts_created : Option Nat
  draft_ids : Option (List String)
  rejected : Option (List (String × String))
deriving DecidableEq, Repr

/-- A failure dictionary `{"success": False, "message": msg}`. -/
def toolFailure (msg : String) : ToolResult :=
  { success := false, message := msg, drafts_created := none,
    draft_ids := none, rejected := none }

/-- `create_email_drafts` from `tools.py`.  `drafts_data = none` models a
non-list argument; `http` is the downstream endpoint, applied to the batch
actually posted.  Returns the result dictionary together with the batch
submitted downstream (`none` when no HTTP request was made). -/
def create_email_drafts (userEmail : String) (draftsData : Option (List DraftInput))
    (http : List DraftItem → HttpOutcome) : ToolResult × Option (List DraftItem) :=
  if userEmail = "" then
    (toolFailure "Invalid user_email provided", none)
  else
    match draftsData with
    | none => (toolFailure "Invalid drafts_data provided - must be a list", none)
    | some draftsList =>
      if draftsList.isEmpty then
        (toolFailure "Invalid drafts_data provided - must be a list", none)
      else
      let drafts := (draftsList.filter validDraft).map (toDraftItem userEmail)
      if drafts.isEmpty then
        (toolFailure "No valid drafts to create. Please check your draft data.", none)
      else
        match http drafts with
        | .status 200 (some rj) _ =>
          ({ success := true, message := rj.message.getD "Drafts created successfully",
             drafts_created := some (rj.drafts_created.getD 0),
             draft_ids := some (rj.draft_ids.getD []), rejected := none }, some drafts)
        | .status 200 none text =>
          (toolFailure ("Unexpected error creating drafts: " ++ text), some drafts)
        | .status code jsonBody text =>
          let detail := match jsonBody with
            | some rj => rj.detail.getD text
            | none => text
          (toolFailure ("API call failed with status " ++ toString code ++ ": " ++ detail),
            some drafts)
        | .timeout =>
          (toolFailure "Request timed out - the email service may be busy", some drafts)
        | .connError =>
          (toolFailure
            "Could not connect to email service - please check your internet connection",
            some drafts)

/-! ## The LangGraph agent node and `SpideyAgent.invoke`
(`agents/email_agent.py`) -/

/-- A conversation message: the source distinguishes only `HumanMessage`
and `AIMessage`. -/
inductive Msg where
  | human (content : String) : Msg
  | ai (content : String) : Msg
deriving DecidableEq, Repr

/-- The contents of the human messages, in order. -/
def humanContents (msgs : List Msg) : List String :=
  msgs.filterMap (fun m => match m with | .human c => some c | .ai _ => none)

/-- `full_conversation`: every human message's content followed by a
space, concatenated. -/
def fullConversation (msgs : List Msg) : String :=
  String.join ((humanContents msgs).map (fun c => c ++ " "))

/-- `last_user_msg`: the content of the last human message, `""` when
there is none. -/
def lastUserMsg (msgs : List Msg) : String :=
  ((humanContents msgs).getLast?).getD ""

/-- Outcome of the conversational `self.llm.invoke(prompt)` call in the
node's normal branch.  `okList` models a response whose content is a list
of parts; `attrErrInt` the `AttributeError` whose message mentions
`'int' object has no attribute 'name'` (swallowed with a canned greeting);
`attrErrOther` any other `AttributeError`, which the source re-raises;
`err` every other exception. -/
inductive NormalOutcome where
  | ok (text : String) : NormalOutcome
  | okList (items : List String) : NormalOutcome
  | attrErrInt : NormalOutcome
  | attrErrOther (msg : String) : NormalOutcome
  | err (msg : String) : NormalOutcome
deriving DecidableEq, Repr

/-- The node's contribution to the agent state after one run. -/
structure NodeResult where
  responseText : String
  toolExecuted : Bool
  toolResult : Option String
  error : Option String
deriving DecidableEq, Repr

/-- One run of the node: the state delta (or the exception the node lets
escape), together with the draft batch handed to `self.tools[0].func`
(`none` when the tool was never called). -/
structure NodeRun where
  result : Except String NodeResult
  dispatched : Option (List DraftRec)
deriving Repr

/-- The canned greeting used for the swallowed `AttributeError`. -/
def spideyGreetingFallback : String :=
  "👋 Hi! I'm Spidey, your email buddy. I love helping with emails - whether you need to write professional outreach emails, apply for jobs, or just get better at email communication.\n\nWhat kind of email help do you need today?"

/-- The error replies of the normal branch, keyed on the exception text as
in the source. -/
def normalErrorReply (msg : String) : String :=
  if containsStr msg "API_KEY_INVALID" || containsStr msg "API key not valid" then
    "Sorry, there seems to be an issue with the API configuration. Please check that your API key is valid."
  else if containsStr (lowerStr msg) "quota" || containsStr (lowerStr msg) "rate limit" then
    "I'm a bit overwhelmed right now! The API quota has been reached. Please try again in a few minutes."
  else
    "Oops! Something went wrong on my end. Let me try to help you differently. What specifically do you need help with?"

/-- The normal conversational branch of the node. -/
def normalBranch (norm : NormalOutcome) (dispatched : Option (List DraftRec)) : NodeRun :=
  match norm with
  | .ok t =>
    let nr : NodeResult :=
      { responseText := t, toolExecuted := false, toolResult := none, error := none }
    { result := .ok nr, dispatched := dispatched }
  | .okList items =>
    let nr : NodeResult :=
      { responseText := String.intercalate "\n" items, toolExecuted := false,
        toolResult := none, error := none }
    { result := .ok nr, dispatched := dispatched }
  | .attrErrInt =>
    let nr : NodeResult :=
      { responseText := spideyGreetingFallback, toolExecuted := false,
        toolResult := none, error := none }
    { result := .ok nr, dispatched := dispatched }
  | .attrErrOther m => { result := .error m, dispatched := dispatched }
  | .err m =>
    let nr : NodeResult :=
      { responseText := normalErrorReply m, toolExecuted := false,
        toolResult := none, error := some ("Error calling LLM: " ++ m) }
    { result := .ok nr, dispatched := dispatched }

/-- The success reply after executing the drafts tool. -/
def toolSuccessText (draftCount : Nat) (recipients : List String) : String :=
  "✅ Successfully created " ++ toString draftCount ++
    " email draft(s) for you!\n📝 Recipients: " ++ String.intercalate ", " recipients

/-- The single LangGraph node `call_model_and_execute_tools`.  `gen` is the
per-recipient content-generation call (applied to the generation prompt),
`tool` the `self.tools[0].func` call (its exception falls through to the
normal branch, as under the source's outer `try`), `norm` the outcome of
the conversational model call. -/
def call_model_and_execute_tools (msgs : List Msg) (userEmail : String)
    (gen : String → Except String String)
    (tool : List DraftRec → Except String String) (norm : NormalOutcome) : NodeRun :=
  let last := lastUserMsg msgs
  let full := fullConversation msgs
  if is_draft_request last full && userEmail ≠ "" then
    let recipients := extract_recipients last full userEmail
    if recipients.isEmpty then
      normalBranch norm none
    else
      let drafts := makeDrafts userEmail full recipients gen
      match tool drafts with
      | .ok toolRes =>
        let nr : NodeResult :=
          { responseText := toolSuccessText drafts.length recipients,
            toolExecuted := true, toolResult := some toolRes, error := none }
        { result := .ok nr, dispatched := some drafts }
      | .error _ => normalBranch norm (some drafts)
  else
    normalBranch norm none

/-- Parsing of the `chat_history` string in `SpideyAgent.invoke`: one
message per line, recognised by its `User: ` or `Spidey: ` tag. -/
def parseHistory (chatHistory : String) : List Msg :=
  if chatHistory = "" then []
  else
    (chatHistory.splitOn "\n").filterMap (fun line =>
      if pyStartsWith line "User: " then some (Msg.human (String.mk (line.data.drop 6)))
      else if pyStartsWith line "Spidey: " then some (Msg.ai (String.mk (line.data.drop 8)))
      else none)

/-- The dictionary `SpideyAgent.invoke` returns. -/
structure InvokeResult where
  success : Bool
  response : String
  action_taken : String
  tool_result : Option String
  error : Option String
deriving DecidableEq, Repr

/-- `final_state.get("tool_executed", False)` after `graph.invoke`: the
`AgentState` schema declares only `messages`, `user_email`, `key_type`,
`api_key` and `error`, and LangGraph's `StateGraph` creates channels only
for schema keys and filters node updates to them — the node's
`tool_executed` update is dropped, so this lookup always yields the
default `False`, whatever the node returned. -/
def finalToolExecuted (_ : NodeResult) : Bool := false

/-- `final_state.get("tool_result", {})` after `graph.invoke`: dropped by
the same channel filtering as `tool_executed`, so the lookup never sees
the node's value. -/
def finalToolResult (_ : NodeResult) : Option String := none

namespace SpideyAgent

/-- `SpideyAgent.invoke`: build the message list, run the graph (the single
node), and map its outcome to the response dictionary; the top-level
`except` turns any escaped exception into the scripted error dictionary.
Because the `tool_executed`/`tool_result` state keys are not `AgentState`
channels (see `finalToolExecuted`), the read-back flag is always false and
`action_taken` can never be `"tool_execution"`.  The `messages` and
`error` keys are schema channels, so the node's response text and error
survive.  The dispatched batch is returned alongside, for observing
downstream calls. -/
def invoke (userInput chatHistory userEmail : String)
    (gen : String → Except String String)
    (tool : List DraftRec → Except String String) (norm : NormalOutcome) :
    InvokeResult × Option (List DraftRec) :=
  let msgs := parseHistory chatHistory ++ [Msg.human userInput]
  let run := call_model_and_execute_tools msgs userEmail gen tool norm
  match run.result with
  | .ok nr =>
    ({ success := nr.error.isNone, response := nr.responseText,
       action_taken := if finalToolExecuted nr then "tool_execution" else "agent_execution",
       tool_result := if finalToolExecuted nr then finalToolResult nr else none,
       error := none }, run.dispatched)
  | .error e =>
    ({ success := false,
       response := "Oops! Something went wrong on my end. Let me try to help you differently. What specifically do you need help with?",
       action_taken := "error", tool_result := none,
       error := some ("Error during agent execution: " ++ e) }, run.dispatched)

end SpideyAgent

/-! ## The FastAPI surface (`main.py`): `process_with_gemini` and
`/invoke` -/

/-- Outcome of `model.generate_content(...)`: the raised exception's text,
or the returned response text. -/
inductive ApiOutcome where
  | raise (msg : String) : ApiOutcome
  | ok (text : String) : ApiOutcome
deriving DecidableEq, Repr

/-- Outcome of `json.loads` on the cleaned model output: `fail` models
`JSONDecodeError`; otherwise the fields the source reads from the parsed
object, each with its source-side `dict.get` default. -/
inductive ParseOutcome where
  | fail : ParseOutcome
  | ok (action : Option String) (drafts : List DraftInput)
      (response explanation : String) (questions : List String) : ParseOutcome
deriving Repr

/-- The dictionary `process_with_gemini` returns: one optional field per
key any of its return statements writes (the `JSONDecodeError` branch
writes `action`, all others `action_taken`). -/
structure ProcResult where
  action_taken : Option String
  action : Option String
  gemini_response : Option String
  explanation : Option String
  suggestions : List String
  questions : List String
  drafts_created : Option Nat
  draft_ids : List String
  tool_result : Option ToolResult
deriving DecidableEq, Repr

/-- A `process_with_gemini` error dictionary (`action_taken = "error"`). -/
def procError (msg : String) (suggestions : List String) : ProcResult :=
  { action_taken := some "error", action := none, gemini_response := some msg,
    explanation := none, suggestions := suggestions, questions := [],
    drafts_created := none, draft_ids := [], tool_result := none }

/-- The markdown-fence cleanup applied to the model output before JSON
parsing. -/
def cleanFences (s : String) : String :=
  if pyStartsWith s "```json" then pyReplace (pyReplace s "```json\n" "") "\n```" ""
  else if pyStartsWith s "```" then pyReplace (pyReplace s "```\n" "") "\n```" ""
  else s

/-- `process_with_gemini` from `main.py`.  `modelErr` is `some e` when no
Gemini model could be constructed; `api` the outcome of the generation
call; `parse` the JSON parser, applied to the cleaned response text;
`http` the downstream mail endpoint threaded into `create_email_drafts`.
The enhanced prompt is plain text that only feeds the external model, so
it is not reconstructed here.  Returns the result dictionary and the batch
submitted downstream (`none` when no dispatch call was made). -/
def process_with_gemini (userEmail geminiApiKey : String) (modelErr : Option String)
    (api : ApiOutcome) (parse : String → ParseOutcome)
    (http : List DraftItem → HttpOutcome) : ProcResult × Option (List DraftItem) :=
  if geminiApiKey = "" || !(pyStartsWith geminiApiKey "AIza") then
    (procError
      "Invalid API key format. Please provide a valid Gemini API key starting with 'AIza'."
      ["Check your API key format", "Ensure you have a valid Gemini API key"], none)
  else
    match modelErr with
    | some e =>
      (procError
        ("Unable to access Gemini API. This could be due to: 1) Invalid API key 2) API quota exceeded 3) Service temporarily unavailable. Last error: " ++ e)
        ["Verify your Gemini API key is valid and has quota",
         "Check Google Cloud Console for API restrictions", "Try again in a few minutes"],
        none)
    | none =>
      match api with
      | .raise errStr =>
        if containsStr errStr "API_KEY_INVALID" || containsStr errStr "API key not valid" then
          (procError
            ("Invalid Gemini API key. Please verify: 1) API key is correct 2) Gemini API is enabled in Google Cloud Console 3) Billing is enabled for your project. Error: " ++ errStr)
            ["Check your API key in Google AI Studio",
             "Enable Gemini API in Google Cloud Console",
             "Verify billing is set up for your Google Cloud project"], none)
        else if containsStr (lowerStr errStr) "quota" ||
            containsStr (lowerStr errStr) "rate limit" then
          (procError
            ("Gemini API quota exceeded. Please wait before making more requests. Error: " ++ errStr)
            ["Wait a few minutes before trying again",
             "Check your API usage limits in Google Cloud Console"], none)
        else
          (procError ("Gemini API error: " ++ errStr)
            ["Try again in a few minutes",
             "Check Google Cloud Console for service status"], none)
      | .ok raw =>
        let responseText := cleanFences (pyStrip raw)
        match parse responseText with
        | .fail =>
          ({ action_taken := none, action := some "provide_guidance",
             gemini_response := none, explanation := some responseText,
             suggestions := ["Let me help you create effective email drafts",
               "Please provide more specific details about your email needs"],
             questions := [], drafts_created := none, draft_ids := [],
             tool_result := none }, none)
        | .ok act drafts resp expl qs =>
          if act = some "create_drafts" && !drafts.isEmpty then
            let call := create_email_drafts userEmail (some drafts) http
            ({ action_taken := some "Created email drafts", action := none,
               gemini_response := some expl, explanation := none, suggestions := [],
               questions := [], drafts_created := some (call.1.drafts_created.getD 0),
               draft_ids := call.1.draft_ids.getD [], tool_result := some call.1 },
              call.2)
          else if act = some "provide_guidance" then
            ({ action_taken := some "provide_guidance", action := none,
               gemini_response := some resp, explanation := some expl,
               suggestions := [], questions := [], drafts_created := none,
               draft_ids := [], tool_result := none }, none)
          else if act = some "need_info" then
            ({ action_taken := some "need_info", action := none,
               gemini_response := some expl, explanation := none, suggestions := [],
               questions := qs, drafts_created := none, draft_ids := [],
               tool_result := none }, none)
          else
            ({ action_taken := some "clarification_needed", action := none,
               gemini_response := some "I need more specific information to create email drafts. Please provide recipient email addresses and context.",
               explanation := none, suggestions := [],
               questions := ["What are the recipient email addresses?",
                 "What type of emails do you want to create?",
                 "What's the purpose or context?"],
               drafts_created := none, draft_ids := [], tool_result := none }, none)

/-- The `SpideyResponse` pydantic model of `main.py`. -/
structure SpideyResponse where
  success : Bool
  message : String
  action_taken : Option String
  drafts_created : Option Nat
  draft_ids : Option (List String)
  questions : Option (List String)
deriving DecidableEq, Repr

/-- The `/invoke` handler `invoke_spidey`.  `execFail` is `some e` when
the awaited executor call raises with message `e`, landing in the
handler's `except` branch; the remaining parameters are threaded to
`process_with_gemini`.  Returns the response together with the dispatched
batch. -/
def invoke_spidey (userEmail geminiApiKey : String) (modelErr : Option String)
    (api : ApiOutcome) (parse : String → ParseOutcome)
    (http : List DraftItem → HttpOutcome) (execFail : Option String) :
    SpideyResponse × Option (List DraftItem) :=
  match execFail with
  | some e =>
    ({ success := false, message := "Spidey encountered an error: " ++ e,
       action_taken := none, drafts_created := none, draft_ids := none,
       questions := none }, none)
  | none =>
    let call := process_with_gemini userEmail geminiApiKey modelErr api parse http
    let result := call.1
    let agentOutput := result.gemini_response.getD ""
    let actionTaken := result.action_taken
    let draftsCreated := result.drafts_created.getD 0
    let draftIds := result.draft_ids
    let questions := result.questions
    if actionTaken = some "provide_guidance" then
      ({ success := true, message := agentOutput, action_taken := actionTaken,
         drafts_created := none, draft_ids := none, questions := none }, call.2)
    else
      ({ success := true, message := agentOutput, action_taken := actionTaken,
         drafts_created := if draftsCreated > 0 then some draftsCreated else none,
         draft_ids := if draftIds.isEmpty then none else some draftIds,
         questions := if questions.isEmpty then none else some questions }, call.2)

/-! ## Spec-side definitions

These two definitions follow the specification's words rather than the
source, so that claims phrased in the specification's terms can be
compared against what the source computes. -/

/-- The local part of an address: the characters before the first `@`. -/
def localPartOf (a : String) : String :=
  String.mk (a.data.takeWhile (fun c => c ≠ '@'))

/-- The domain part of an address: the characters after the first `@`. -/
def domainPartOf (a : String) : String :=
  String.mk ((a.data.dropWhile (fun c => c ≠ '@')).drop 1)

/-- The sender comparison demanded by the specification for recipient
exclusion: case-sensitive on the local part, case-insensitive on the
domain.  The source instead filters by exact string equality. -/
def specSenderEq (a b : String) : Bool :=
  localPartOf a = localPartOf b && lowerStr (domainPartOf a) = lowerStr (domainPartOf b)

/-- The reporting shape the specification demands of a dispatch result for
a batch of `n` items of which `k` fail validation: a `rejected` list of
exactly `k` entries, each with reason `"invalid_fields"`, with accepted and
rejected counts summing to `n`.  The source's result dictionary never
carries a `rejected` key, so its `rejected` field is constantly `none`. -/
def reportsInvalidFieldRejections (res : ToolResult) (n k : Nat) : Prop :=
  ∃ rej, res.rejected = some rej ∧ rej.length = k ∧
    (∀ p ∈ rej, p.2 = "invalid_fields") ∧ (res.draft_ids.getD []).length + rej.length = n

/-! ## Concrete fixtures used by the claim theorems -/

/-- A two-item batch whose second draft has an empty subject. -/
def c2Batch : List DraftInput :=
  [DraftInput.dict (some "a@b.co") (some "Hi") (some "Body"),
   DraftInput.dict (some "c@d.co") (some "") (some "Body")]

/-- A downstream endpoint accepting the batch, crediting one draft id. -/
def c2Http : List DraftItem → HttpOutcome := fun _ =>
  HttpOutcome.status 200
    (some { drafts_created := some 1, draft_ids := some ["d1"],
            message := some "ok", detail := none }) ""

/-- A content generator returning well-formed draft text. -/
def okGen : String → Except String String := fun _ => Except.ok "SUBJECT: X\nBODY: Y"

/-- A drafts tool call that succeeds. -/
def okTool : List DraftRec → Except String String := fun _ => Except.ok "tool ok"

/-! ## Supporting lemmas on first-seen-order de-duplication -/

/-- Membership in `firstDedupAux`: exactly the elements of the input not
already seen. -/
theorem mem_firstDedupAux {x : String} : ∀ (seen l : List String),
    x ∈ firstDedupAux seen l ↔ x ∈ l ∧ x ∉ seen := by
  intro seen l
  induction l generalizing seen with
  | nil => simp [firstDedupAux]
  | cons a t ih =>
    by_cases h : a ∈ seen
    · rw [firstDedupAux, if_pos h, ih]
      constructor
      · rintro ⟨hx, hns⟩
        exact ⟨List.mem_cons_of_mem _ hx, hns⟩
      · rintro ⟨hx, hns⟩
        rcases List.mem_cons.mp hx with rfl | hx
        · exact absurd h hns
        · exact ⟨hx, hns⟩
    · rw [firstDedupAux, if_neg h]
      constructor
      · intro hx
        rcases List.mem_cons.mp hx with rfl | hx
        · exact ⟨List.mem_cons_self _ _, h⟩
        · rcases (ih (a :: seen)).mp hx with ⟨hxt, hns⟩
          exact ⟨List.mem_cons_of_mem _ hxt,
            fun hs => hns (List.mem_cons_of_mem _ hs)⟩
      · rintro ⟨hx, hns⟩
        rcases List.mem_cons.mp hx with rfl | hx
        · exact List.mem_cons_self _ _
        · by_cases hxa : x = a
          · subst hxa; exact List.mem_cons_self _ _
          · exact List.mem_cons_of_mem _ ((ih (a :: seen)).mpr
              ⟨hx, by simp [hxa, hns]⟩)

/-- `firstDedupAux` never emits an element twice. -/
theorem nodup_firstDedupAux : ∀ (seen l : List String), (firstDedupAux seen l).Nodup := by
  intro seen l
  induction l generalizing seen with
  | nil => simp [firstDedupAux]
  | cons a t ih =>
    by_cases h : a ∈ seen
    · rw [firstDedupAux, if_pos h]; exact ih seen
    · rw [firstDedupAux, if_neg h]
      refine List.nodup_cons.mpr ⟨?_, ih (a :: seen)⟩
      intro ha
      exact ((mem_firstDedupAux _ _).mp ha).2 (List.mem_cons_self _ _)

/-- `firstDedupAux` emits elements in order of their first occurrence:
first-occurrence indices are strictly increasing along the output. -/
theorem pairwise_firstDedupAux : ∀ (seen l : List String),
    (firstDedupAux seen l).Pairwise (fun x y => l.indexOf x < l.indexOf y) := by
  intro seen l
  induction l generalizing seen with
  | nil => simp [firstDedupAux]
  | cons a t ih =>
    by_cases h : a ∈ seen
    · rw [firstDedupAux, if_pos h]
      refine ((ih seen)).imp_of_mem ?_
      intro x y hx hy hlt
      have hxa : x ≠ a := fun hxa =>
        ((mem_firstDedupAux _ _).mp hx).2 (hxa ▸ h)
      have hya : y ≠ a := fun hya =>
        ((mem_firstDedupAux _ _).mp hy).2 (hya ▸ h)
      rw [List.indexOf_cons_ne _ (Ne.symm hxa), List.indexOf_cons_ne _ (Ne.symm hya)]
      omega
    · rw [firstDedupAux, if_neg h]
      refine List.pairwise_cons.mpr ⟨?_, ?_⟩
      · intro y hy
        have hya : y ≠ a := fun hya =>
          ((mem_firstDedupAux _ _).mp hy).2 (hya ▸ List.mem_cons_self _ _)
        rw [List.indexOf_cons_self, List.indexOf_cons_ne _ (Ne.symm hya)]
        omega
      · refine (ih (a :: seen)).imp_of_mem ?_
        intro x y hx hy hlt
        have hxa : x ≠ a := fun hxa =>
          ((mem_firstDedupAux _ _).mp hx).2 (hxa ▸ List.mem_cons_self _ _)
        have hya : y ≠ a := fun hya =>
          ((mem_firstDedupAux _ _).mp hy).2 (hya ▸ List.mem_cons_self _ _)
        rw [List.indexOf_cons_ne _ (Ne.symm hxa), List.indexOf_cons_ne _ (Ne.symm hya)]
        omega

/-- Filtering keeps every copy of a surviving element, so comparisons of
first-occurrence indices transfer from the filtered list to the original
one. -/
theorem indexOf_lt_of_filter_indexOf_lt {p : String → Bool} :
    ∀ {l : List String} {x y : String}, x ∈ l.filter p → y ∈ l.filter p →
      (l.filter p).indexOf x < (l.filter p).indexOf y → l.indexOf x < l.indexOf y := by
  intro l
  induction l with
  | nil => intro x y hx; simp at hx
  | cons c t ih =>
    intro x y hx hy hlt
    by_cases hpc : p c
    · rw [List.filter_cons_of_pos hpc] at hx hy hlt
      by_cases hxc : x = c
      · subst hxc
        have hyx : y ≠ x := by
          rintro rfl
          rw [List.indexOf_cons_self] at hlt
          omega
        rw [List.indexOf_cons_self]
        rw [List.indexOf_cons_ne _ (Ne.symm hyx)]
        omega
      · by_cases hyc : y = c
        · subst hyc
          rw [List.indexOf_cons_self, List.indexOf_cons_ne _ (Ne.symm hxc)] at hlt
          omega
        · rw [List.indexOf_cons_ne _ (Ne.symm hxc), List.indexOf_cons_ne _ (Ne.symm hyc)] at hlt
          have hx' : x ∈ t.filter p := by
            rcases List.mem_cons.mp hx with rfl | hx'
            · exact absurd rfl hxc
            · exact hx'
          have hy' : y ∈ t.filter p := by
            rcases List.mem_cons.mp hy with rfl | hy'
            · exact absurd rfl hyc
            · exact hy'
          have := ih hx' hy' (by omega)
          rw [List.indexOf_cons_ne _ (Ne.symm hxc), List.indexOf_cons_ne _ (Ne.symm hyc)]
          omega
    · rw [List.filter_cons_of_neg hpc] at hx hy hlt
      have hxc : x ≠ c := by
        rintro rfl
        exact hpc (List.mem_filter.mp hx).2
      have hyc : y ≠ c := by
        rintro rfl
        exact hpc (List.mem_filter.mp hy).2
      have := ih hx hy hlt
      rw [List.indexOf_cons_ne _ (Ne.symm hxc), List.indexOf_cons_ne _ (Ne.symm hyc)]
      omega

/-! ## The claims -/

/-- C1: the claim says a pure advice question never classifies as
`CreateDrafts` and that classification is a natural-language call, not
keyword matching.  The source classifies by keyword lists, and on the
advice question "How do I write a better email to sam@example.com?"
(containing "write" and "email") with a known user address it classifies a
draft request, dispatches a draft batch downstream and answers with the
"✅ Successfully created ..." message — against the claim and against the
source's own system prompt, which says "How do I..." questions must be
answered without tools.  (The response is labelled `agent_execution`, not
`tool_execution`: the node's `tool_executed` key is not an `AgentState`
channel and is dropped by the graph.) -/
theorem c1_keyword_misfire :
    is_draft_request "How do I write a better email to sam@example.com?"
        "How do I write a better email to sam@example.com? " = true ∧
    (SpideyAgent.invoke "How do I write a better email to sam@example.com?" "" "me@example.com"
        okGen okTool (NormalOutcome.ok "direct advice")).2 =
      some [{ user_email := "me@example.com", to_email := "sam@example.com",
              subject := "X", body := "Y" }] ∧
    (SpideyAgent.invoke "How do I write a better email to sam@example.com?" "" "me@example.com"
        okGen okTool (NormalOutcome.ok "direct advice")).1.response =
      toolSuccessText 1 ["sam@example.com"] ∧
    (SpideyAgent.invoke "How do I write a better email to sam@example.com?" "" "me@example.com"
        okGen okTool (NormalOutcome.ok "direct advice")).1.action_taken =
      "agent_execution" := by decide

/-- C2 counterexample: for the two-item batch `c2Batch` with exactly one
invalid item, the dispatch result reports no rejected list at all (the
`rejected` key is never written), so the claimed `rejected.length == K`
and `accepted_ids.length + rejected.length == N` accounting fails. -/
theorem c2_counterexample :
    ¬ reportsInvalidFieldRejections
        (create_email_drafts "u@x.com" (some c2Batch) c2Http).1 2 1 := by
  rintro ⟨rej, hrej, -⟩
  have h : (create_email_drafts "u@x.com" (some c2Batch) c2Http).1.rejected = none := by decide
  rw [h] at hrej
  exact Option.noConfusion hrej

/-- C2 amended: items failing the presence/truthiness validation are
silently skipped — never submitted downstream, with the submitted batch
exactly the valid items in order, so its length is `N − K` — but the
result carries no `rejected` list and no `"invalid_fields"` reason. -/
theorem c2_amended (userEmail : String) (l : List DraftInput)
    (http : List DraftItem → HttpOutcome) (hu : userEmail ≠ "") (hl : l ≠ []) :
    (create_email_drafts userEmail (some l) http).1.rejected = none ∧
    (l.filter validDraft).length + (l.filter (fun d => !(validDraft d))).length = l.length ∧
    (l.filter validDraft ≠ [] →
      (create_email_drafts userEmail (some l) http).2 =
        some ((l.filter validDraft).map (toDraftItem userEmail))) := by
  have hemp : l.isEmpty = false := by
    cases l with
    | nil => exact absurd rfl hl
    | cons a t => rfl
  refine ⟨?_, ?_, ?_⟩
  · rw [create_email_drafts, if_neg hu]
    dsimp only
    rw [if_neg (by simp [hemp])]
    split
    · rfl
    · split <;> rfl
  · have := List.length_eq_length_filter_add (l := l) validDraft
    omega
  · intro hne
    rw [create_email_drafts, if_neg hu]
    dsimp only
    rw [if_neg (by simp [hemp])]
    rw [if_neg]
    · split <;> rfl
    · simp [hne]

/-- C2 witness: the amended statement at the concrete two-item batch. -/
theorem c2_amended_witness :
    (create_email_drafts "u@x.com" (some c2Batch) c2Http).1.rejected = none ∧
    (create_email_drafts "u@x.com" (some c2Batch) c2Http).2 =
      some ((c2Batch.filter validDraft).map (toDraftItem "u@x.com")) :=
  ⟨(c2_amended "u@x.com" c2Batch c2Http (by decide) (by decide)).1,
   (c2_amended "u@x.com" c2Batch c2Http (by decide) (by decide)).2.2 (by decide)⟩

/-- C3 counterexample: when the generation call succeeds but its output
lacks the `SUBJECT:`/`BODY:` markers, the draft's subject is the default
"Professional Outreach", not the claimed "Message for {display_name}". -/
theorem c3_counterexample :
    (generate_draft "me@x.com" "sam@example.com" (Except.ok "Here is your email")).subject =
      "Professional Outreach" ∧
    "Professional Outreach" ≠ "Message for " ++ recipientName "sam@example.com" := by decide

/-- C3 amended: a raised (or timed-out) generation call yields the
template with subject "Message for {display_name}"; a successful call
whose output cannot be parsed into both fields yields the same template
body under subject "Professional Outreach"; and generation is
per-recipient and independent — the batch keeps one draft per recipient,
each determined only by its own recipient's generation outcome. -/
theorem c3_amended :
    (∀ (u r e : String), generate_draft u r (Except.error e) =
      { user_email := u, to_email := r, subject := "Message for " ++ recipientName r,
        body := fallbackBody (recipientName r) }) ∧
    (∀ (u r t : String),
      ¬(containsStr t "SUBJECT:" = true ∧ containsStr t "BODY:" = true) →
      generate_draft u r (Except.ok t) =
        { user_email := u, to_email := r, subject := "Professional Outreach",
          body := fallbackBody (recipientName r) }) ∧
    (∀ (u full : String) (rs : List String) (gen : String → Except String String),
      (makeDrafts u full rs gen).length = rs.length ∧
      ∀ i : Nat, (makeDrafts u full rs gen)[i]? = (rs[i]?).map (fun r =>
        generate_draft u r (gen (draftPrompt full (recipientName r) r)))) := by
  refine ⟨?_, ?_, ?_⟩
  · intro u r e
    rfl
  · intro u r t h
    rw [generate_draft, if_neg]
    intro hc
    rw [Bool.and_eq_true] at hc
    exact h hc
  · intro u full rs gen
    constructor
    · simp [makeDrafts]
    · intro i
      simp [makeDrafts]

/-- C3 witness: both fallback shapes at a concrete recipient. -/
theorem c3_amended_witness :
    generate_draft "me@x.com" "sam@example.com" (Except.error "timeout") =
      { user_email := "me@x.com", to_email := "sam@example.com",
        subject := "Message for " ++ recipientName "sam@example.com",
        body := fallbackBody (recipientName "sam@example.com") } ∧
    generate_draft "me@x.com" "sam@example.com" (Except.ok "oops") =
      { user_email := "me@x.com", to_email := "sam@example.com",
        subject := "Professional Outreach",
        body := fallbackBody (recipientName "sam@example.com") } :=
  ⟨c3_amended.1 "me@x.com" "sam@example.com" "timeout",
   c3_amended.2.1 "me@x.com" "sam@example.com" "oops" (by decide)⟩

/-- C4 counterexample: when the model output is not parseable JSON, the
classifier returns a `provide_guidance` (direct-answer) dictionary with no
clarifying questions — not the claimed `need_info` fallback. -/
theorem c4_counterexample :
    (process_with_gemini "u@x.com" "AIzaXYZ" none (ApiOutcome.ok "this is not json")
        (fun _ => ParseOutcome.fail) (fun _ => HttpOutcome.timeout)).1.action =
      some "provide_guidance" ∧
    (process_with_gemini "u@x.com" "AIzaXYZ" none (ApiOutcome.ok "this is not json")
        (fun _ => ParseOutcome.fail) (fun _ => HttpOutcome.timeout)).1.action_taken ≠
      some "need_info" ∧
    (process_with_gemini "u@x.com" "AIzaXYZ" none (ApiOutcome.ok "this is not json")
        (fun _ => ParseOutcome.fail) (fun _ => HttpOutcome.timeout)).1.questions = [] := by
  decide

/-- C4 amended: on a JSON parse failure the classifier falls back to a
`provide_guidance` dictionary carrying the raw cleaned text (and no
`action_taken` key); only when the output parses but its action is none of
the three variants does it fall back to `clarification_needed` with the
generic clarifying questions. -/
theorem c4_amended :
    (∀ (u key raw : String) (http : List DraftItem → HttpOutcome),
      pyStartsWith key "AIza" = true →
      process_with_gemini u key none (ApiOutcome.ok raw) (fun _ => ParseOutcome.fail) http =
        ({ action_taken := none, action := some "provide_guidance", gemini_response := none,
           explanation := some (cleanFences (pyStrip raw)),
           suggestions := ["Let me help you create effective email drafts",
             "Please provide more specific details about your email needs"],
           questions := [], drafts_created := none, draft_ids := [],
           tool_result := none }, none)) ∧
    (∀ (u key raw : String) (http : List DraftItem → HttpOutcome) (act : Option String)
        (drafts : List DraftInput) (resp expl : String) (qs : List String),
      pyStartsWith key "AIza" = true →
      (act = some "create_drafts" → drafts = []) →
      act ≠ some "provide_guidance" → act ≠ some "need_info" →
      (process_with_gemini u key none (ApiOutcome.ok raw)
          (fun _ => ParseOutcome.ok act drafts resp expl qs) http).1.action_taken =
        some "clarification_needed" ∧
      (process_with_gemini u key none (ApiOutcome.ok raw)
          (fun _ => ParseOutcome.ok act drafts resp expl qs) http).1.questions =
        ["What are the recipient email addresses?",
         "What type of emails do you want to create?",
         "What's the purpose or context?"]) := by
  constructor
  · intro u key raw http hk
    have hne : key ≠ "" := by
      rintro rfl
      exact absurd hk (by decide)
    rw [process_with_gemini, if_neg]
    simp [hk, hne]
  · intro u key raw http act drafts resp expl qs hk hcd hpg hni
    have hne : key ≠ "" := by
      rintro rfl
      exact absurd hk (by decide)
    rw [process_with_gemini, if_neg]
    · by_cases hact : act = some "create_drafts"
      · have hd : drafts = [] := hcd hact
        subst hd
        simp [hact, hpg, hni]
      · simp [hact, hpg, hni]
    · simp [hk, hne]

/-- C4 witness: both fallback paths at concrete inputs. -/
theorem c4_amended_witness :
    process_with_gemini "u@x.com" "AIzaXYZ" none (ApiOutcome.ok "raw text")
        (fun _ => ParseOutcome.fail) (fun _ => HttpOutcome.timeout) =
      ({ action_taken := none, action := some "provide_guidance", gemini_response := none,
         explanation := some (cleanFences (pyStrip "raw text")),
         suggestions := ["Let me help you create effective email drafts",
           "Please provide more specific details about your email needs"],
         questions := [], drafts_created := none, draft_ids := [],
         tool_result := none }, none) ∧
    (process_with_gemini "u@x.com" "AIzaXYZ" none (ApiOutcome.ok "raw")
        (fun _ => ParseOutcome.ok (some "unknown_action") [] "" "" [])
        (fun _ => HttpOutcome.timeout)).1.action_taken = some "clarification_needed" :=
  ⟨c4_amended.1 "u@x.com" "AIzaXYZ" "raw text" (fun _ => HttpOutcome.timeout) (by decide),
   ((c4_amended.2 "u@x.com" "AIzaXYZ" "raw" (fun _ => HttpOutcome.timeout)
      (some "unknown_action") [] "" "" [] (by decide) (by decide) (by decide)
      (by decide)).1)⟩

/-- C5 counterexample: with sender "me@example.com", the extractor keeps
"me@EXAMPLE.com" — the sender's own address under the claim's
domain-case-insensitive comparison — because the source filters by exact
string equality. -/
theorem c5_counterexample :
    "me@EXAMPLE.com" ∈ extract_recipients "contact me@EXAMPLE.com please" "" "me@example.com" ∧
      specSenderEq "me@EXAMPLE.com" "me@example.com" = true := by decide

/-- C5 amended: the exclusion compares full addresses by exact,
case-sensitive string equality, so the output never contains a string
equal to the sender identity. -/
theorem c5_amended (lastMsg full user : String) :
    user ∉ extract_recipients lastMsg full user := by
  intro h
  rw [extract_recipients, firstDedup] at h
  have h2 := (List.mem_filter.mp ((mem_firstDedupAux _ _).mp h).1).2
  simp at h2

/-- C5 witness: the amended exclusion at a concrete conversation. -/
theorem c5_amended_witness :
    "me@example.com" ∉ extract_recipients "mail me@example.com and x@y.co" "" "me@example.com" :=
  c5_amended _ _ _

/-- C6: the extractor returns each distinct address at most once, its
output is exactly the scanned addresses minus the sender, and the output
order follows each address's first occurrence in the scan (first-occurrence
indices are strictly increasing; the scanner emits matches in textual
order). -/
theorem c6_dedup_first_seen_order (lastMsg full user : String) :
    (extract_recipients lastMsg full user).Nodup ∧
    (∀ a, a ∈ extract_recipients lastMsg full user ↔
      (a ∈ scannedEmails lastMsg full ∧ a ≠ user)) ∧
    (extract_recipients lastMsg full user).Pairwise
      (fun x y => (scannedEmails lastMsg full).indexOf x <
        (scannedEmails lastMsg full).indexOf y) := by
  refine ⟨?_, ?_, ?_⟩
  · rw [extract_recipients, firstDedup]
    exact nodup_firstDedupAux _ _
  · intro a
    rw [extract_recipients, firstDedup, mem_firstDedupAux]
    simp [List.mem_filter]
  · rw [extract_recipients, firstDedup]
    refine (pairwise_firstDedupAux _ _).imp_of_mem ?_
    intro x y hx hy hlt
    exact indexOf_lt_of_filter_indexOf_lt
      ((mem_firstDedupAux _ _).mp hx).1 ((mem_firstDedupAux _ _).mp hy).1 hlt

/-- C6 witness: the de-duplication properties at a conversation containing
a repeated address. -/
theorem c6_witness :
    (extract_recipients "a@b.co and x@y.co and a@b.co" "" "me@x.co").Nodup ∧
    (∀ a, a ∈ extract_recipients "a@b.co and x@y.co and a@b.co" "" "me@x.co" ↔
      (a ∈ scannedEmails "a@b.co and x@y.co and a@b.co" "" ∧ a ≠ "me@x.co")) ∧
    (extract_recipients "a@b.co and x@y.co and a@b.co" "" "me@x.co").Pairwise
      (fun x y => (scannedEmails "a@b.co and x@y.co and a@b.co" "").indexOf x <
        (scannedEmails "a@b.co and x@y.co and a@b.co" "").indexOf y) :=
  c6_dedup_first_seen_order "a@b.co and x@y.co and a@b.co" "" "me@x.co"

/-- C7 counterexample: a pure question produces `action_taken =
"agent_execution"`, which is not in the claimed value set
{direct_response, need_info, tool_execution, error} and in particular is
not the claimed "direct_response". -/
theorem c7_counterexample :
    (SpideyAgent.invoke "How do I get better at networking?" "" "me@example.com"
        okGen okTool (NormalOutcome.ok "some tips")).1.action_taken = "agent_execution" ∧
    "agent_execution" ∉
      (["direct_response", "need_info", "tool_execution", "error"] : List String) := by
  decide

/-- C7 amended: the agent's `action_taken` values are exactly
{tool_execution, agent_execution, error}; a request the keyword classifier
does not deem a draft request never yields `tool_execution` and makes no
dispatch call. -/
theorem c7_amended (userInput chatHistory userEmail : String)
    (gen : String → Except String String) (tool : List DraftRec → Except String String)
    (norm : NormalOutcome) :
    (SpideyAgent.invoke userInput chatHistory userEmail gen tool norm).1.action_taken ∈
      (["tool_execution", "agent_execution", "error"] : List String) ∧
    (is_draft_request (lastUserMsg (parseHistory chatHistory ++ [Msg.human userInput]))
        (fullConversation (parseHistory chatHistory ++ [Msg.human userInput])) = false →
      (SpideyAgent.invoke userInput chatHistory userEmail gen tool norm).1.action_taken ≠
        "tool_execution" ∧
      (SpideyAgent.invoke userInput chatHistory userEmail gen tool norm).2 = none) := by
  constructor
  · cases hres : (call_model_and_execute_tools
        (parseHistory chatHistory ++ [Msg.human userInput]) userEmail gen tool norm).result with
    | error e => simp [SpideyAgent.invoke, hres]
    | ok nr => simp [SpideyAgent.invoke, hres, finalToolExecuted]
  · intro hfalse
    have hnode : call_model_and_execute_tools
        (parseHistory chatHistory ++ [Msg.human userInput]) userEmail gen tool norm =
        normalBranch norm none := by
      rw [call_model_and_execute_tools]
      simp [hfalse]
    cases norm <;> simp [SpideyAgent.invoke, hnode, normalBranch, finalToolExecuted]

/-- C7 witness: the amended statement at a concrete pure question. -/
theorem c7_amended_witness :
    (SpideyAgent.invoke "How do I get better at networking?" "" "me@example.com"
        okGen okTool (NormalOutcome.ok "tips")).1.action_taken ∈
      (["tool_execution", "agent_execution", "error"] : List String) ∧
    (SpideyAgent.invoke "How do I get better at networking?" "" "me@example.com"
        okGen okTool (NormalOutcome.ok "tips")).1.action_taken ≠ "tool_execution" ∧
    (SpideyAgent.invoke "How do I get better at networking?" "" "me@example.com"
        okGen okTool (NormalOutcome.ok "tips")).2 = none :=
  ⟨(c7_amended "How do I get better at networking?" "" "me@example.com"
      okGen okTool (NormalOutcome.ok "tips")).1,
   (c7_amended "How do I get better at networking?" "" "me@example.com"
      okGen okTool (NormalOutcome.ok "tips")).2 (by decide)⟩

/-- C8: the `/invoke` boundary is total over every outcome of the inner
pipeline — including unparseable classification output and bad or missing
credentials — and an exception caught at the boundary yields exactly the
scripted error response, so no exception crosses to the caller; the
success flag is false exactly when the boundary caught an exception. -/
theorem c8_boundary_total (userEmail geminiApiKey : String) (modelErr : Option String)
    (api : ApiOutcome) (parse : String → ParseOutcome)
    (http : List DraftItem → HttpOutcome) (execFail : Option String) :
    (invoke_spidey userEmail geminiApiKey modelErr api parse http execFail).1.success =
      execFail.isNone ∧
    (∀ e, execFail = some e →
      (invoke_spidey userEmail geminiApiKey modelErr api parse http execFail).1 =
        { success := false, message := "Spidey encountered an error: " ++ e,
          action_taken := none, drafts_created := none, draft_ids := none,
          questions := none }) := by
  constructor
  · cases execFail with
    | none =>
      simp only [invoke_spidey]
      split <;> rfl
    | some e => rfl
  · intro e he
    subst he
    rfl

/-- C8 witness: the boundary at a concrete caught exception. -/
theorem c8_boundary_total_witness :
    (invoke_spidey "u@x.com" "AIzaXYZ" none (ApiOutcome.ok "x") (fun _ => ParseOutcome.fail)
        (fun _ => HttpOutcome.timeout) (some "boom")).1 =
      { success := false, message := "Spidey encountered an error: boom",
        action_taken := none, drafts_created := none, draft_ids := none,
        questions := none } :=
  (c8_boundary_total "u@x.com" "AIzaXYZ" none (ApiOutcome.ok "x") (fun _ => ParseOutcome.fail)
    (fun _ => HttpOutcome.timeout) (some "boom")).2 "boom" rfl

/-- C9: when the user's own email address is empty or unsupplied, the
guard in the agent node skips the tool branch entirely: no dispatch call
is made and the result's `action_taken` is never `tool_execution`, for any
conversation and any oracle outcomes. -/
theorem c9_empty_user_email (userInput chatHistory : String)
    (gen : String → Except String String) (tool : List DraftRec → Except String String)
    (norm : NormalOutcome) :
    (SpideyAgent.invoke userInput chatHistory "" gen tool norm).2 = none ∧
    (SpideyAgent.invoke userInput chatHistory "" gen tool norm).1.action_taken ≠
      "tool_execution" := by
  cases norm <;>
    simp [SpideyAgent.invoke, call_model_and_execute_tools, normalBranch, finalToolExecuted]

/-- C9 witness: an explicit draft request with a recipient address but no
user email never dispatches. -/
theorem c9_empty_user_email_witness :
    (SpideyAgent.invoke "Write an email to sam@example.com" "" "" okGen okTool
        (NormalOutcome.ok "please share your email")).2 = none ∧
    (SpideyAgent.invoke "Write an email to sam@example.com" "" "" okGen okTool
        (NormalOutcome.ok "please share your email")).1.action_taken ≠ "tool_execution" :=
  c9_empty_user_email _ _ _ _ _

/-- C10: when the batch is not a list, is empty, or every item fails field
validation, `create_email_drafts` returns a failure result with an
explanatory message and issues no downstream HTTP request. -/
theorem c10_all_invalid_never_submits (userEmail : String)
    (draftsData : Option (List DraftInput)) (http : List DraftItem → HttpOutcome)
    (h : draftsData = none ∨ draftsData = some [] ∨
      ∃ l, draftsData = some l ∧ ∀ d ∈ l, validDraft d = false) :
    (create_email_drafts userEmail draftsData http).1.success = false ∧
    (create_email_drafts userEmail draftsData http).2 = none ∧
    (create_email_drafts userEmail draftsData http).1.message ≠ "" := by
  by_cases hu : userEmail = ""
  · simp [create_email_drafts, hu, toolFailure]
  · rcases h with rfl | rfl | ⟨l, rfl, hall⟩
    · simp [create_email_drafts, hu, toolFailure]
    · simp [create_email_drafts, hu, toolFailure]
    · have hfil : l.filter validDraft = [] :=
        List.filter_eq_nil_iff.mpr (fun a ha => by simp [hall a ha])
      cases l with
      | nil => simp [create_email_drafts, hu, toolFailure]
      | cons a t =>
        simp [create_email_drafts, hu, toolFailure, hfil]

/-- C10 witness: a concrete batch whose two items both fail validation. -/
theorem c10_all_invalid_never_submits_witness :
    (create_email_drafts "u@x.com"
        (some [DraftInput.notDict, DraftInput.dict none (some "s") (some "b")]) c2Http).1.success =
      false ∧
    (create_email_drafts "u@x.com"
        (some [DraftInput.notDict, DraftInput.dict none (some "s") (some "b")]) c2Http).2 =
      none ∧
    (create_email_drafts "u@x.com"
        (some [DraftInput.notDict, DraftInput.dict none (some "s") (some "b")]) c2Http).1.message ≠
      "" :=
  c10_all_invalid_never_submits "u@x.com"
    (some [DraftInput.notDict, DraftInput.dict none (some "s") (some "b")]) c2Http
    (Or.inr (Or.inr ⟨_, rfl, by decide⟩))

end Spidey
